import Mathlib

/-!
# Verification of the `useSocket` hook (react-simple-socket)

Shallow embedding of `src/service/useSocket.ts` and `src/service/types.ts`.
React state setters become explicit state-passing functions; each socket
event handler becomes a function from the previous state (plus the event's
payload) to the next state together with the error it raises, if any.
JS `Date` values are modelled as `Nat` timestamps, JS objects used as
application state as association lists `List (String × Int)`, and JS
substring search (`String.prototype.includes`) as an executable infix
check over `List Char`.
-/

namespace UseSocket

/-- Boolean prefix test over character lists. -/
def charsPrefixOf : List Char → List Char → Bool
  | [], _ => true
  | _ :: _, [] => false
  | a :: as, b :: bs => a == b && charsPrefixOf as bs

/-- Boolean infix (contiguous substring) test over character lists. -/
def charsInfixOf : List Char → List Char → Bool
  | needle, [] => charsPrefixOf needle []
  | needle, b :: rest =>
    charsPrefixOf needle (b :: rest) || charsInfixOf needle rest

/-- Model of JS `msg.includes(sub)`: substring containment. -/
def includesStr (msg sub : String) : Bool :=
  charsInfixOf sub.data msg.data

/-- `SocketErrorType` from `types.ts`. -/
inductive SocketErrorType
  | connection
  | timeout
  | authentication
  | authorization
  | validation
  | server
  | network
  | unknown
deriving DecidableEq, Repr

/-- The `connect_error` handler's error-type classification
(`useSocket.ts` lines 165–168): a chain of independent `if` statements,
each overwriting the variable when its substring matches. -/
def classifyConnectError (msg : String) : SocketErrorType :=
  let t : SocketErrorType := .connection
  let t : SocketErrorType := if includesStr msg "timeout" then .timeout else t
  let t : SocketErrorType := if includesStr msg "auth" then .authentication else t
  let t : SocketErrorType := if includesStr msg "unauthorized" then .authorization else t
  t

/-- Application state objects: JS objects with string keys and integer
values, as ordered association lists (`{count: -5}` becomes
`[("count", -5)]`). -/
abbrev Obj : Type := List (String × Int)

/-- Lookup of a key in an object. -/
def lookupVal (o : Obj) (k : String) : Option Int :=
  (o.find? (fun kv => kv.1 == k)).map (·.2)

/-- JS object spread `{...prev, ...update}`: keys of `prev` in order, with
values overridden by `update` where present, followed by the keys of
`update` not present in `prev`. -/
def spreadMerge (prev update : Obj) : Obj :=
  prev.map (fun kv =>
    match lookupVal update kv.1 with
    | some v => (kv.1, v)
    | none => kv) ++
  update.filter (fun kv => (lookupVal prev kv.1).isNone)

/-- The `details` payloads attached to errors raised by the hook. -/
inductive ErrorDetails
  | disconnectInfo (reason : String)
  | connectErrorInfo (message : String)
  | maxAttemptsInfo (maxAttempts : Nat)
  | stateInfo (state : Obj)
  | updateInfo (update : Obj) (previousState : Obj)
  | updatePayload (update : Obj)
  | newStatePayload (newState : Obj)
deriving DecidableEq, Repr

/-- `SocketErrorPayload` from `types.ts`: what handlers pass to
`handleError` (id and timestamp are stamped on afterwards). -/
structure SocketErrorPayload where
  type : SocketErrorType
  message : String
  details : ErrorDetails
deriving DecidableEq, Repr

/-- `SocketConnectionState` from `types.ts`; `Date` fields as `Nat`. -/
structure SocketConnectionState where
  isConnected : Bool
  isConnecting : Bool
  connectionId : Option String
  connectedAt : Option Nat
  lastDisconnectedAt : Option Nat
  disconnectReason : Option String
deriving DecidableEq, Repr

/-- The `useState` initial value of `connection` (`useSocket.ts` 47–50). -/
def initialConnection : SocketConnectionState :=
  { isConnected := false, isConnecting := false, connectionId := none,
    connectedAt := none, lastDisconnectedAt := none, disconnectReason := none }

/-- The setup-phase mutation `setConnection(prev => ({ ...prev,
isConnecting: true }))` run by the effect body before registering
handlers (`useSocket.ts` line 115). -/
def connectStart (prev : SocketConnectionState) : SocketConnectionState :=
  { prev with isConnecting := true }

/-- The `connect` handler's `setConnection` (`useSocket.ts` 118–125):
replaces the whole connection object. -/
def onConnect (socketId : Option String) (now : Nat)
    (_prev : SocketConnectionState) : SocketConnectionState :=
  { isConnected := true, isConnecting := false, connectionId := socketId,
    connectedAt := some now, lastDisconnectedAt := none,
    disconnectReason := none }

/-- The `disconnect` handler's `setConnection` (`useSocket.ts` 142–150). -/
def onDisconnect (reason : String) (now : Nat)
    (prev : SocketConnectionState) : SocketConnectionState :=
  { prev with
      isConnected := false
      isConnecting := false
      lastDisconnectedAt := some now
      disconnectReason := some reason }

/-- The error the `disconnect` handler raises exactly when the reason is
`io server disconnect` (`useSocket.ts` 153–159). -/
def onDisconnectError (reason : String) : Option SocketErrorPayload :=
  if reason == "io server disconnect" then
    some { type := .connection,
           message := "Server forcibly disconnected the socket",
           details := .disconnectInfo reason }
  else none

/-- The `connect_error` handler's `setConnection` (`useSocket.ts` 163). -/
def onConnectError (prev : SocketConnectionState) : SocketConnectionState :=
  { prev with isConnecting := false }

/-- The error the `connect_error` handler raises (`useSocket.ts` 170–174),
typed via `classifyConnectError`. -/
def onConnectErrorPayload (msg : String) : SocketErrorPayload :=
  { type := classifyConnectError msg, message := msg,
    details := .connectErrorInfo msg }

/-- Connection states reachable through the mutations the hook performs on
`connection`: the initial `useState` value, the setup-phase start
mutation, and the `connect` / `disconnect` / `connect_error` handlers.
The setup mutation recurs when the effect re-runs (dependency change):
the cleanup removes every listener before calling `socket.disconnect()`,
so no handler resets the state in between. -/
inductive ReachableConn : SocketConnectionState → Prop
  | init : ReachableConn initialConnection
  | start {s} : ReachableConn s → ReachableConn (connectStart s)
  | connect {s} (sid : Option String) (now : Nat) :
      ReachableConn s → ReachableConn (onConnect sid now s)
  | disconnect {s} (reason : String) (now : Nat) :
      ReachableConn s → ReachableConn (onDisconnect reason now s)
  | connectError {s} : ReachableConn s → ReachableConn (onConnectError s)

/-- `ReconnectionInfo` from `types.ts` (without the unused
`lastFailureReason`, which no code path ever sets). -/
structure ReconnectionInfo where
  attempt : Nat
  maxAttempts : Nat
  nextRetryIn : Nat
  isReconnecting : Bool
deriving DecidableEq, Repr

/-- The `useState` initial value of `reconnectionInfo`
(`useSocket.ts` 52–57). -/
def initialReconnectionInfo (reconnectionAttempts : Nat) : ReconnectionInfo :=
  { attempt := 0, maxAttempts := reconnectionAttempts, nextRetryIn := 0,
    isReconnecting := false }

/-- The `reconnect_attempt` handler's `setReconnectionInfo`
(`useSocket.ts` 178–183): spreads `prev` and assigns `attempt`,
`isReconnecting` and `maxAttempts` — it does not touch `nextRetryIn`. -/
def onReconnectAttempt (reconnectionAttempts : Nat)
    (prev : ReconnectionInfo) (attemptNumber : Nat) : ReconnectionInfo :=
  { prev with
      attempt := attemptNumber
      isReconnecting := true
      maxAttempts := reconnectionAttempts }

/-- `delay = Math.min(reconnectionDelay * Math.pow(2, attemptNumber - 1),
reconnectionDelayMax)` (`useSocket.ts` line 186). -/
def reconnectDelay (reconnectionDelay reconnectionDelayMax : Nat)
    (attemptNumber : Nat) : Nat :=
  min (reconnectionDelay * 2 ^ (attemptNumber - 1)) reconnectionDelayMax

/-- One interval tick (`useSocket.ts` line 192):
`timeLeft = Math.max(0, timeLeft - 1000)`. -/
def tickTimeLeft (t : Nat) : Nat :=
  max 0 (t - 1000)

/-- The interval's local `timeLeft` after `k` ticks, starting from
`delay`. The value written to `nextRetryIn` by the k-th tick (k ≥ 1,
fired `k` seconds after the notification) is `timeLeftAfterTicks delay k`;
the interval is cleared once it reaches 0. -/
def timeLeftAfterTicks (delay : Nat) : Nat → Nat
  | 0 => delay
  | k + 1 => tickTimeLeft (timeLeftAfterTicks delay k)

/-- The `reconnect_failed` handler's `setReconnectionInfo`
(`useSocket.ts` 204–210). -/
def onReconnectFailed (prev : ReconnectionInfo) : ReconnectionInfo :=
  { prev with isReconnecting := false, nextRetryIn := 0 }

/-- The `connect` handler's `setReconnectionInfo` (`useSocket.ts` 127–132). -/
def onConnectReconnectionInfo (prev : ReconnectionInfo) : ReconnectionInfo :=
  { prev with attempt := 0, isReconnecting := false, nextRetryIn := 0 }

/-- The `stateUpdate` handler (`useSocket.ts` 219–230): validate the full
replacement when a validator is configured, reject-and-raise or apply.
Returns the next application state and the raised error, if any. -/
def handleStateUpdate (stateValidator : Option (Obj → Bool))
    (prev : Option Obj) (newState : Obj) :
    Option Obj × Option SocketErrorPayload :=
  match stateValidator with
  | some v =>
    if !v newState then
      (prev, some { type := .validation,
                    message := "Received state failed validation",
                    details := .stateInfo newState })
    else (some newState, none)
  | none => (some newState, none)

/-- The `statePartialUpdate` handler (`useSocket.ts` 232–249): if there is
no existing state the updater returns `prev` unchanged; otherwise the
candidate is the spread `{...prev, ...update}`, validated when a
validator is configured. -/
def handleStatePartialUpdate (stateValidator : Option (Obj → Bool))
    (prev : Option Obj) (update : Obj) :
    Option Obj × Option SocketErrorPayload :=
  match prev with
  | none => (none, none)
  | some p =>
    let newState := spreadMerge p update
    match stateValidator with
    | some v =>
      if !v newState then
        (some p, some { type := .validation,
                        message := "Updated state failed validation",
                        details := .updateInfo update p })
      else (some newState, none)
    | none => (some newState, none)

/-- Applying a sequence of `statePartialUpdate` events in order,
threading the application state (errors raised along the way do not feed
back into the state). -/
def applyPartialUpdates (stateValidator : Option (Obj → Bool))
    (s : Option Obj) (updates : List Obj) : Option Obj :=
  updates.foldl (fun st p => (handleStatePartialUpdate stateValidator st p).1) s

/-- Every intermediate merge candidate of the update sequence passes the
validator. -/
def candidatesPass (v : Obj → Bool) : Obj → List Obj → Bool
  | _, [] => true
  | s, p :: ps =>
    v (spreadMerge s p) && candidatesPass v (spreadMerge s p) ps

/-- The socket instance as the hook observes it through `socketRef`:
its `connected` flag, its id, and whether its synchronous `emit` throws
(the situation the `try/catch` blocks in `updateState`/`replaceState`
guard against). -/
structure SocketInstance where
  connected : Bool
  sid : Option String
  emitThrows : Bool
deriving DecidableEq, Repr

/-- `socketRef.current?.connected ?? false` — the guard
`if (!socket?.connected)` in `updateState`/`replaceState` and the guards
in `emit`/`disconnect`. -/
def refConnected (socket : Option SocketInstance) : Bool :=
  match socket with
  | some s => s.connected
  | none => false

/-- Messages the hook emits on the socket. -/
inductive SentMessage
  | updateStateMsg (update : Obj)
  | replaceStateMsg (newState : Obj)
  | joinRoomMsg (room : String)
  | freeform (event : String)
deriving DecidableEq, Repr

/-- Outcome of one call to `updateState` / `replaceState`: the returned
boolean, the error passed to `handleError` (if any), and the messages
emitted on the socket. -/
structure SendOutcome where
  success : Bool
  raisedError : Option SocketErrorPayload
  sent : List SentMessage
deriving DecidableEq, Repr

/-- `updateState` (`useSocket.ts` 281–308). It never touches the local
application state, so the embedding returns it unchanged alongside the
outcome. -/
def updateState (socket : Option SocketInstance) (appState : Option Obj)
    (update : Obj) : Option Obj × SendOutcome :=
  (appState,
   if !refConnected socket then
     { success := false,
       raisedError := some { type := .connection,
                             message := "Cannot update state: socket not connected",
                             details := .updatePayload update },
       sent := [] }
   else if (socket.map (·.emitThrows)).getD false then
     { success := false,
       raisedError := some { type := .unknown,
                             message := "Failed to send state update",
                             details := .updatePayload update },
       sent := [] }
   else
     { success := true, raisedError := none,
       sent := [.updateStateMsg update] })

/-- `replaceState` (`useSocket.ts` 310–346): connection guard, then —
inside the `try` — outgoing validation, then the emit. It never touches
the local application state. -/
def replaceState (stateValidator : Option (Obj → Bool))
    (socket : Option SocketInstance) (appState : Option Obj)
    (newState : Obj) : Option Obj × SendOutcome :=
  (appState,
   if !refConnected socket then
     { success := false,
       raisedError := some { type := .connection,
                             message := "Cannot replace state: socket not connected",
                             details := .newStatePayload newState },
       sent := [] }
   else if (stateValidator.map (fun v => !v newState)).getD false then
     { success := false,
       raisedError := some { type := .validation,
                             message := "New state failed validation",
                             details := .newStatePayload newState },
       sent := [] }
   else if (socket.map (·.emitThrows)).getD false then
     { success := false,
       raisedError := some { type := .unknown,
                             message := "Failed to send state replacement",
                             details := .newStatePayload newState },
       sent := [] }
   else
     { success := true, raisedError := none,
       sent := [.replaceStateMsg newState] })

/-- `emit` (`useSocket.ts` 364–378): passthrough send when connected,
nothing otherwise. -/
def emit (socket : Option SocketInstance) (event : String) :
    List SentMessage :=
  if refConnected socket then [.freeform event] else []

/-- Calls the hook makes on the underlying socket object. -/
inductive SocketCall
  | connectCall
  | disconnectCall
deriving DecidableEq, Repr

/-- `reconnect` (`useSocket.ts` 348–354): `socket.connect()` whenever an
instance exists. -/
def reconnect (socket : Option SocketInstance) : List SocketCall :=
  match socket with
  | some _ => [.connectCall]
  | none => []

/-- `disconnect` (`useSocket.ts` 356–362): `socket.disconnect()` only when
currently connected. -/
def disconnect (socket : Option SocketInstance) : List SocketCall :=
  if refConnected socket then [.disconnectCall] else []

/-- What one call to `on(event, listener)` does (`useSocket.ts` 380–403):
with an instance it registers the listener and returns a real
unsubscriber; with no instance it registers nothing and returns the
no-op `() => {}`. `registered` records whether a listener was added;
`unsubRemoves` whether the returned closure deregisters it. -/
structure OnOutcome where
  registered : Bool
  unsubRemoves : Bool
deriving DecidableEq, Repr

/-- The hook's `on` (the name `on` is reserved in Lean). -/
def onSubscribe (socket : Option SocketInstance) (_event : String) : OnOutcome :=
  match socket with
  | some _ => { registered := true, unsubRemoves := true }
  | none => { registered := false, unsubRemoves := false }

/-- The effect body's guard (`useSocket.ts` 99–113): with
`autoConnect = false` it returns before `io(...)`, so `socketRef` stays
`null`; otherwise the created instance is stored. -/
def setupSocket (autoConnect : Bool) (created : SocketInstance) :
    Option SocketInstance :=
  if autoConnect then some created else none

end UseSocket

namespace UseSocket

/-- Neither `isConnected` nor `isConnecting` is allowed to hold together:
the exclusivity invariant of `SocketConnectionState`. -/
def connExclusive (s : SocketConnectionState) : Prop :=
  ¬(s.isConnected = true ∧ s.isConnecting = true)

/-- A concrete validator used to instantiate theorems about validation:
the `count` field, when present, must be nonnegative. -/
def countNonneg : Obj → Bool := fun o => decide (0 ≤ (lookupVal o "count").getD 0)

/-- Closed form of the countdown: after `k` ticks the interval's
`timeLeft` is `delay - 1000·k` (truncated at 0). -/
lemma timeLeftAfterTicks_eq (delay k : Nat) :
    timeLeftAfterTicks delay k = delay - 1000 * k := by
  induction k with
  | zero => simp [timeLeftAfterTicks]
  | succ k ih =>
    simp [timeLeftAfterTicks, tickTimeLeft, ih, Nat.sub_sub, Nat.mul_succ]

/-- A partial update whose merge candidate passes the validator advances
the state to the candidate. -/
lemma handleStatePartialUpdate_pass (v : Obj → Bool) (p update : Obj)
    (h : v (spreadMerge p update) = true) :
    handleStatePartialUpdate (some v) (some p) update =
      (some (spreadMerge p update), none) := by
  simp [handleStatePartialUpdate, h]

/-- Threading a list of partial updates whose intermediate candidates all
pass the validator computes the left fold of the spread merge. -/
lemma applyPartialUpdates_pass (v : Obj → Bool) (ps : List Obj) (s0 : Obj)
    (hps : candidatesPass v s0 ps = true) :
    applyPartialUpdates (some v) (some s0) ps =
      some (ps.foldl spreadMerge s0) := by
  induction ps generalizing s0 with
  | nil => rfl
  | cons p ps ih =>
    rw [candidatesPass, Bool.and_eq_true] at hps
    obtain ⟨h1, h2⟩ := hps
    show applyPartialUpdates (some v)
      ((handleStatePartialUpdate (some v) (some s0) p).1) ps = _
    rw [handleStatePartialUpdate_pass v s0 p h1]
    exact ih (spreadMerge s0 p) h2

end UseSocket

namespace UseSocket

/-- Claim C1, as stated: substring match with priority timeout first, then
authentication, then authorization — in particular a message containing
`timeout` is always classified `timeout`. Refuted: the handler's `if`
statements are not chained with `else`, so the LAST matching check wins.
The message `"auth timeout"` contains `timeout` yet is classified
`authentication`. -/
theorem C1_counterexample :
    includesStr "auth timeout" "timeout" = true ∧
    classifyConnectError "auth timeout" ≠ .timeout ∧
    classifyConnectError "auth timeout" = .authentication := by decide

/-- Claim C1 (amended): the classification is last-match-wins, i.e. the
priority is reversed: `authorization` if the message contains
`unauthorized`; otherwise `authentication` if it contains `auth`;
otherwise `timeout` if it contains `timeout`; otherwise `connection`. -/
theorem C1_classify_last_match_wins (msg : String) :
    classifyConnectError msg =
      (if includesStr msg "unauthorized" then .authorization
       else if includesStr msg "auth" then .authentication
       else if includesStr msg "timeout" then .timeout
       else .connection) := by
  unfold classifyConnectError
  rcases h3 : includesStr msg "unauthorized" <;>
    rcases h2 : includesStr msg "auth" <;>
    rcases h1 : includesStr msg "timeout" <;>
    simp [h1, h2, h3]

/-- Claim C2, as stated: at the moment the `reconnect_attempt`
notification is handled, `nextRetryIn` equals
`min(baseDelay·2^(N−1), maxDelay)`. Refuted: the handler's
`setReconnectionInfo` spreads the previous record and never assigns
`nextRetryIn`; with base 1000, cap 5000, attempt 3 the computed delay is
4000 but `nextRetryIn` keeps its prior value 0, and the first value the
interval ever writes is 3000, not 4000. -/
theorem C2_counterexample :
    (onReconnectAttempt 5 (initialReconnectionInfo 5) 3).nextRetryIn = 0 ∧
    reconnectDelay 1000 5000 3 = 4000 ∧
    (onReconnectAttempt 5 (initialReconnectionInfo 5) 3).nextRetryIn ≠
      reconnectDelay 1000 5000 3 ∧
    timeLeftAfterTicks (reconnectDelay 1000 5000 3) 1 = 3000 := by decide

/-- Claim C2 (amended): the `reconnect_attempt` handler records the
attempt number and sets `isReconnecting`, leaving `nextRetryIn`
unchanged; the countdown it starts writes `nextRetryIn = delay − 1000·k`
(truncated at 0) at the k-th tick, where
`delay = min(baseDelay·2^(N−1), maxDelay)`, so the written values
decrease monotonically to 0 in 1000 ms steps and start at `delay − 1000`
one second after the notification (3000 for base 1000, cap 5000,
attempt 3), never at `delay` itself. -/
theorem C2_reconnect_countdown (ra base cap N : Nat) (prev : ReconnectionInfo) :
    (onReconnectAttempt ra prev N).nextRetryIn = prev.nextRetryIn ∧
    (onReconnectAttempt ra prev N).attempt = N ∧
    (onReconnectAttempt ra prev N).isReconnecting = true ∧
    (∀ k, timeLeftAfterTicks (reconnectDelay base cap N) k =
      reconnectDelay base cap N - 1000 * k) ∧
    (∀ k, timeLeftAfterTicks (reconnectDelay base cap N) (k + 1) ≤
      timeLeftAfterTicks (reconnectDelay base cap N) k) ∧
    reconnectDelay 1000 5000 3 = 4000 ∧
    timeLeftAfterTicks (reconnectDelay 1000 5000 3) 1 = 3000 := by
  refine ⟨rfl, rfl, rfl, fun k => timeLeftAfterTicks_eq _ k, fun k => ?_, by decide, by decide⟩
  rw [timeLeftAfterTicks_eq, timeLeftAfterTicks_eq]
  exact Nat.sub_le_sub_left (Nat.mul_le_mul_left 1000 (Nat.le_succ k)) _

/-- Claim C3: for both inbound update handlers, the configured validator
is applied to the resulting candidate state (the full replacement, resp.
the spread merge); if it rejects, the state is left exactly as it was and
a validation-typed error carrying the offending payload is raised, and if
it accepts, the state becomes the candidate with no error. -/
theorem C3_inbound_validation (v : Obj → Bool) :
    (∀ (prev : Option Obj) (newState : Obj), v newState = false →
      handleStateUpdate (some v) prev newState =
        (prev, some { type := .validation,
                      message := "Received state failed validation",
                      details := .stateInfo newState })) ∧
    (∀ (p update : Obj), v (spreadMerge p update) = false →
      handleStatePartialUpdate (some v) (some p) update =
        (some p, some { type := .validation,
                        message := "Updated state failed validation",
                        details := .updateInfo update p })) ∧
    (∀ (prev : Option Obj) (newState : Obj), v newState = true →
      handleStateUpdate (some v) prev newState = (some newState, none)) ∧
    (∀ (p update : Obj), v (spreadMerge p update) = true →
      handleStatePartialUpdate (some v) (some p) update =
        (some (spreadMerge p update), none)) := by
  refine ⟨fun prev newState h => ?_, fun p update h => ?_,
    fun prev newState h => ?_, fun p update h => ?_⟩ <;>
    simp [handleStateUpdate, handleStatePartialUpdate, h]

/-- Witness for C3 at the validator `countNonneg`, previous state
`{count: 1}` and payloads `{count: -5}` (rejected) and `{count: 2}`
(accepted). -/
theorem C3_inbound_validation_witness :
    handleStateUpdate (some countNonneg) (some [("count", 1)]) [("count", -5)] =
      (some [("count", 1)],
       some { type := .validation,
              message := "Received state failed validation",
              details := .stateInfo [("count", -5)] }) ∧
    handleStatePartialUpdate (some countNonneg) (some [("count", 1)]) [("count", -5)] =
      (some [("count", 1)],
       some { type := .validation,
              message := "Updated state failed validation",
              details := .updateInfo [("count", -5)] [("count", 1)] }) ∧
    handleStateUpdate (some countNonneg) (some [("count", 1)]) [("count", 2)] =
      (some [("count", 2)], none) ∧
    handleStatePartialUpdate (some countNonneg) (some [("count", 1)]) [("count", 2)] =
      (some (spreadMerge [("count", 1)] [("count", 2)]), none) :=
  ⟨(C3_inbound_validation countNonneg).1 (some [("count", 1)]) [("count", -5)] (by decide),
   (C3_inbound_validation countNonneg).2.1 [("count", 1)] [("count", -5)] (by decide),
   (C3_inbound_validation countNonneg).2.2.1 (some [("count", 1)]) [("count", 2)] (by decide),
   (C3_inbound_validation countNonneg).2.2.2 [("count", 1)] [("count", 2)] (by decide)⟩

/-- Claim C4: `updateState` and `replaceState` invoked while the socket is
not connected (including when no instance exists) return `false` and
raise a connection-typed error, without emitting anything. -/
theorem C4_not_connected_fails (socket : Option SocketInstance)
    (v : Option (Obj → Bool)) (appState : Option Obj) (upd newSt : Obj)
    (h : refConnected socket = false) :
    (updateState socket appState upd).2.success = false ∧
    ((updateState socket appState upd).2.raisedError.map (·.type)) =
      some .connection ∧
    (updateState socket appState upd).2.sent = [] ∧
    (replaceState v socket appState newSt).2.success = false ∧
    ((replaceState v socket appState newSt).2.raisedError.map (·.type)) =
      some .connection ∧
    (replaceState v socket appState newSt).2.sent = [] := by
  simp [updateState, replaceState, h]

/-- Witness for C4: no socket instance, no validator, empty state. -/
theorem C4_not_connected_fails_witness :
    (updateState none none [("count", 1)]).2.success = false ∧
    ((updateState none none [("count", 1)]).2.raisedError.map (·.type)) =
      some .connection ∧
    (updateState none none [("count", 1)]).2.sent = [] ∧
    (replaceState none none none [("count", 2)]).2.success = false ∧
    ((replaceState none none none [("count", 2)]).2.raisedError.map (·.type)) =
      some .connection ∧
    (replaceState none none none [("count", 2)]).2.sent = [] :=
  C4_not_connected_fails none none none [("count", 1)] [("count", 2)] rfl

/-- Claim C5: after a full update that passes validation, processing a
sequence of partial updates whose intermediate merge candidates all pass
the validator yields exactly the left-to-right shallow merge of the full
state with the partials. -/
theorem C5_sequence_merges (v : Obj → Bool) (prev : Option Obj) (s0 : Obj)
    (ps : List Obj) (hfull : v s0 = true)
    (hps : candidatesPass v s0 ps = true) :
    applyPartialUpdates (some v) ((handleStateUpdate (some v) prev s0).1) ps =
      some (ps.foldl spreadMerge s0) := by
  have h0 : (handleStateUpdate (some v) prev s0).1 = some s0 := by
    simp [handleStateUpdate, hfull]
  rw [h0]
  exact applyPartialUpdates_pass v ps s0 hps

/-- Witness for C5: validator `countNonneg`, full state
`{count: 1, name: 7}`, partials `{count: 2}` then `{extra: 3}`. -/
theorem C5_sequence_merges_witness :
    applyPartialUpdates (some countNonneg)
      ((handleStateUpdate (some countNonneg) none [("count", 1), ("name", 7)]).1)
      [[("count", 2)], [("extra", 3)]] =
      some ([[("count", 2)], [("extra", 3)]].foldl spreadMerge
        [("count", 1), ("name", 7)]) :=
  C5_sequence_merges countNonneg none [("count", 1), ("name", 7)]
    [[("count", 2)], [("extra", 3)]] (by decide) (by decide)

/-- Claim C6: a partial update arriving while the application state is
still null is a no-op — the state stays null and no error is raised. -/
theorem C6_partial_on_null (stateValidator : Option (Obj → Bool)) (update : Obj) :
    handleStatePartialUpdate stateValidator none update = (none, none) := rfl

/-- Claim C7: `replaceState` while connected with a validator that rejects
the outgoing payload returns `false`, records exactly one
validation-typed error, leaves the application state unchanged, and
performs no send. -/
theorem C7_replace_rejected (v : Obj → Bool) (socket : Option SocketInstance)
    (appState : Option Obj) (newState : Obj)
    (hconn : refConnected socket = true) (hrej : v newState = false) :
    replaceState (some v) socket appState newState =
      (appState,
       { success := false,
         raisedError := some { type := .validation,
                               message := "New state failed validation",
                               details := .newStatePayload newState },
         sent := [] }) := by
  simp [replaceState, hconn, hrej]

/-- Witness for C7: connected socket, validator `countNonneg`, outgoing
payload `{count: -5}`. -/
theorem C7_replace_rejected_witness :
    replaceState (some countNonneg)
      (some { connected := true, sid := some "s1", emitThrows := false })
      (some [("count", 1)]) [("count", -5)] =
      (some [("count", 1)],
       { success := false,
         raisedError := some { type := .validation,
                               message := "New state failed validation",
                               details := .newStatePayload [("count", -5)] },
         sent := [] }) :=
  C7_replace_rejected countNonneg
    (some { connected := true, sid := some "s1", emitThrows := false })
    (some [("count", 1)]) [("count", -5)] rfl (by decide)

/-- Claim C8, as stated: isConnected and isConnecting are never both true
in a reachable connection state. Refuted: the setup-phase mutation
`setConnection(prev => ({ ...prev, isConnecting: true }))` does not clear
`isConnected`, so re-running the effect while connected (the cleanup
removes every listener before disconnecting, so nothing resets the state
in between) yields a reachable state with both flags true. -/
theorem C8_counterexample :
    ReachableConn (connectStart (onConnect (some "s1") 5 initialConnection)) ∧
    (connectStart (onConnect (some "s1") 5 initialConnection)).isConnected = true ∧
    (connectStart (onConnect (some "s1") 5 initialConnection)).isConnecting = true :=
  ⟨.start (.connect (some "s1") 5 .init), rfl, rfl⟩

/-- Claim C8 (amended): the initial state satisfies the exclusivity
invariant and the connect, disconnect and connect_error handlers always
re-establish it, but the setup-phase start mutation preserves it only
when `isConnected` is false — so the invariant holds for all states
reachable without re-running the connection setup while connected, and
can be violated otherwise. -/
theorem C8_exclusivity (s : SocketConnectionState) :
    connExclusive initialConnection ∧
    (∀ sid now, connExclusive (onConnect sid now s)) ∧
    (∀ reason now, connExclusive (onDisconnect reason now s)) ∧
    connExclusive (onConnectError s) ∧
    (s.isConnected = false → connExclusive (connectStart s)) := by
  refine ⟨?_, fun sid now => ?_, fun reason now => ?_, ?_, fun h => ?_⟩ <;>
    simp [connExclusive, initialConnection, onConnect, onDisconnect,
      onConnectError, connectStart, *]

/-- Witness for C8 (amended) at the initial state, whose `isConnected` is
false. -/
theorem C8_exclusivity_witness :
    connExclusive (connectStart initialConnection) :=
  (C8_exclusivity initialConnection).2.2.2.2 rfl

/-- Claim C9: the disconnect handler changes only `isConnected`,
`isConnecting`, `lastDisconnectedAt` and `disconnectReason`;
`connectionId` and `connectedAt` keep their prior values. -/
theorem C9_disconnect_frame (prev : SocketConnectionState) (reason : String)
    (now : Nat) :
    (onDisconnect reason now prev).connectionId = prev.connectionId ∧
    (onDisconnect reason now prev).connectedAt = prev.connectedAt ∧
    (onDisconnect reason now prev).isConnected = false ∧
    (onDisconnect reason now prev).isConnecting = false ∧
    (onDisconnect reason now prev).lastDisconnectedAt = some now ∧
    (onDisconnect reason now prev).disconnectReason = some reason :=
  ⟨rfl, rfl, rfl, rfl, rfl, rfl⟩

/-- Claim C10: with `autoConnect = false` no socket instance is created;
`updateState`/`replaceState` return false with a connection-typed error,
`emit` sends nothing, `reconnect` and `disconnect` call nothing on the
socket, and `on` registers no listener and returns a no-op
unsubscriber. -/
theorem C10_no_autoconnect (created : SocketInstance)
    (v : Option (Obj → Bool)) (appState : Option Obj) (upd newSt : Obj)
    (ev ev2 : String) :
    setupSocket false created = none ∧
    (updateState (setupSocket false created) appState upd).2.success = false ∧
    ((updateState (setupSocket false created) appState upd).2.raisedError.map
      (·.type)) = some .connection ∧
    (replaceState v (setupSocket false created) appState newSt).2.success = false ∧
    ((replaceState v (setupSocket false created) appState newSt).2.raisedError.map
      (·.type)) = some .connection ∧
    emit (setupSocket false created) ev = [] ∧
    reconnect (setupSocket false created) = [] ∧
    disconnect (setupSocket false created) = [] ∧
    onSubscribe (setupSocket false created) ev2 =
      { registered := false, unsubRemoves := false } := by
  simp [setupSocket, updateState, replaceState, emit, reconnect, disconnect,
    onSubscribe, refConnected]

end UseSocket
